import Mathlib

/-!
Verification of the symbolic value language, resolver, and execution
adapter backends of the transactional test runner
(crates/sui-transactional-test-runner: args.rs and lib.rs).

Shallow embedding conventions:
* machine integers are `Nat` with explicit bounds where the source checks
  them (u64, u256);
* 32-byte addresses, object ids and digests are `List Nat` (byte lists);
* fallible Rust code returning `anyhow::Result` is `Outcome`, which also
  has a distinct constructor for Rust panics (`panic!`, `unimplemented!`),
  since a panic is not an error value returned to the caller;
* external collaborator state (the test adapter's handle table, object
  store and staged-package table) is a record of functions, read exactly
  where the source reads it.
-/

/-- Modelled from the spec: a script-local handle for an object
(`FakeID`, defined in test_adapter.rs which is outside src): either
`Enumerated (i, j)` — the j-th object created by the i-th command, both
u64 — or `Known addr` — bound to a fixed 32-byte address. -/
inductive FakeID where
  | Enumerated (i : Nat) (j : Nat)
  | Known (addr : List Nat)
deriving DecidableEq

/-- Tokens of the base value grammar consumed by the extra-value parser
(`ValueToken` variants used in args.rs), with the token text of a number
modelled as the numeral's value. -/
inductive Tok where
  | ident (s : String)
  | lparen
  | number (n : Nat)
  | comma
  | atSign
  | rparen
deriving DecidableEq

/-- `parser.advance(ValueToken::Ident)`: consume an identifier token. -/
def advanceIdent : List Tok → Except String (String × List Tok)
  | Tok.ident s :: rest => Except.ok (s, rest)
  | _ => Except.error "unexpected token"

/-- `parser.advance(ValueToken::LParen)`. -/
def advanceLParen : List Tok → Except String (List Tok)
  | Tok.lparen :: rest => Except.ok rest
  | _ => Except.error "unexpected token"

/-- `parser.advance(ValueToken::Number)`: consume a number token,
returning the numeral. -/
def advanceNumber : List Tok → Except String (Nat × List Tok)
  | Tok.number n :: rest => Except.ok (n, rest)
  | _ => Except.error "unexpected token"

/-- `parser.advance(ValueToken::Comma)`. -/
def advanceComma : List Tok → Except String (List Tok)
  | Tok.comma :: rest => Except.ok rest
  | _ => Except.error "unexpected token"

/-- `parser.advance(ValueToken::AtSign)`. -/
def advanceAtSign : List Tok → Except String (List Tok)
  | Tok.atSign :: rest => Except.ok rest
  | _ => Except.error "unexpected token"

/-- `parser.advance(ValueToken::RParen)`. -/
def advanceRParen : List Tok → Except String (List Tok)
  | Tok.rparen :: rest => Except.ok rest
  | _ => Except.error "unexpected token"

/-- `parser.peek_tok()`. -/
def peekTok (toks : List Tok) : Option Tok := toks.head?

/-- `parse_u256` on a numeral: succeeds iff the value fits in 256 bits. -/
def parseU256 (n : Nat) : Except String Nat :=
  if n < 2 ^ 256 then Except.ok n else Except.error "number too large"

/-- `parse_u64` on a numeral: succeeds iff the value fits in 64 bits. -/
def parseU64 (n : Nat) : Except String Nat :=
  if n < 2 ^ 64 then Except.ok n else Except.error "number too large"

/-- `u64::MAX`. -/
def u64Max : Nat := 2 ^ 64 - 1

/-- `U256::to_le_bytes`: the 32 little-endian bytes of a 256-bit value. -/
def toLeBytes32 (n : Nat) : List Nat :=
  (List.range 32).map fun k => n / 256 ^ k % 256

/-- The branch of `parse_receiving_or_object_value` that builds the
`FakeID` after the first number `i` has been parsed as a u256: a peeked
comma selects the enumerated form (second number parsed as u64, with the
`i > u64::MAX` bail-out "Object ID too large" and `unchecked_as_u64`),
otherwise the value is reinterpreted as raw address bytes (little-endian
bytes reversed to big-endian) giving a known handle. -/
def parseFakeIdPart (i : Nat) (toks : List Tok) : Except String (FakeID × List Tok) :=
  if peekTok toks = some Tok.comma then
    match advanceComma toks with
    | Except.error e => Except.error e
    | Except.ok toks1 =>
      match advanceNumber toks1 with
      | Except.error e => Except.error e
      | Except.ok (j_str, toks2) =>
        match parseU64 j_str with
        | Except.error e => Except.error e
        | Except.ok j =>
          if i > u64Max then Except.error "Object ID too large"
          else Except.ok (FakeID.Enumerated i j, toks2)
  else
    Except.ok (FakeID.Known (toLeBytes32 i).reverse, toks)

/-- The trailing `@version` branch of `parse_receiving_or_object_value`:
a peeked at-sign introduces a u64 version pin (`SequenceNumber::from_u64`
modelled as the identity on `Nat`). -/
def parseVersionPart (toks : List Tok) : Except String (Option Nat × List Tok) :=
  if peekTok toks = some Tok.atSign then
    match advanceAtSign toks with
    | Except.error e => Except.error e
    | Except.ok toks1 =>
      match advanceNumber toks1 with
      | Except.error e => Except.error e
      | Except.ok (v_str, toks2) =>
        match parseU64 v_str with
        | Except.error e => Except.error e
        | Except.ok v => Except.ok (some v, toks2)
  else Except.ok (none, toks)

/-- `SuiExtraValueArgs::parse_receiving_or_object_value`: expects
`ident_name ( number [, number] ) [@ number]` and produces the handle and
optional version pin. -/
def parse_receiving_or_object_value (toks : List Tok) (ident_name : String) :
    Except String ((FakeID × Option Nat) × List Tok) :=
  match advanceIdent toks with
  | Except.error e => Except.error e
  | Except.ok (contents, toks1) =>
    if contents = ident_name then
      match advanceLParen toks1 with
      | Except.error e => Except.error e
      | Except.ok toks2 =>
        match advanceNumber toks2 with
        | Except.error e => Except.error e
        | Except.ok (i_str, toks3) =>
          match parseU256 i_str with
          | Except.error e => Except.error e
          | Except.ok i =>
            match parseFakeIdPart i toks3 with
            | Except.error e => Except.error e
            | Except.ok (fake_id, toks4) =>
              match advanceRParen toks4 with
              | Except.error e => Except.error e
              | Except.ok toks5 =>
                match parseVersionPart toks5 with
                | Except.error e => Except.error e
                | Except.ok (version, toks6) => Except.ok ((fake_id, version), toks6)
    else Except.error "ensure failed: wrong identifier"

/-- `SuiExtraValueArgs`: the three extra symbolic value forms produced by
the parser. -/
inductive SuiExtraValueArgs where
  | Object (f : FakeID) (version : Option Nat)
  | Digest (s : String)
  | Receiving (f : FakeID) (version : Option Nat)
deriving DecidableEq

/-- `SuiExtraValueArgs::parse_object_value`. -/
def parse_object_value (toks : List Tok) : Except String (SuiExtraValueArgs × List Tok) :=
  match parse_receiving_or_object_value toks "object" with
  | Except.error e => Except.error e
  | Except.ok ((fake_id, version), rest) =>
    Except.ok (SuiExtraValueArgs.Object fake_id version, rest)

/-- `SuiExtraValueArgs::parse_receiving_value`. -/
def parse_receiving_value (toks : List Tok) : Except String (SuiExtraValueArgs × List Tok) :=
  match parse_receiving_or_object_value toks "receiving" with
  | Except.error e => Except.error e
  | Except.ok ((fake_id, version), rest) =>
    Except.ok (SuiExtraValueArgs.Receiving fake_id version, rest)

/-- Claim C3: parsing `object(I,J)` with `I ≤ u64::MAX` and `J` a u64
yields the enumerated handle `(I,J)`; parsing `object(N)` with no
trailing comma yields the known handle whose address bytes are the
big-endian reversal of `N`'s little-endian 256-bit encoding; the
disambiguator is solely the trailing comma (the equations hold for all
values of the numerals). -/
theorem c3_object_literal_parsing (i j n : Nat)
    (hi : i ≤ u64Max) (hj : j < 2 ^ 64) (hn : n < 2 ^ 256) :
    parse_object_value
        [Tok.ident "object", Tok.lparen, Tok.number i, Tok.comma,
         Tok.number j, Tok.rparen]
      = Except.ok (SuiExtraValueArgs.Object (FakeID.Enumerated i j) none, []) ∧
    parse_object_value [Tok.ident "object", Tok.lparen, Tok.number n, Tok.rparen]
      = Except.ok
          (SuiExtraValueArgs.Object (FakeID.Known (toLeBytes32 n).reverse) none, []) := by
  have h256 : (2 : Nat) ^ 256
      = 115792089237316195423570985008687907853269984665640564039457584007913129639936 := by
    norm_num
  have h64 : (2 : Nat) ^ 64 = 18446744073709551616 := by norm_num
  have hi256 : i < 115792089237316195423570985008687907853269984665640564039457584007913129639936 := by
    have hu : u64Max < 115792089237316195423570985008687907853269984665640564039457584007913129639936 := by
      norm_num [u64Max]
    omega
  have hn256 : n < 115792089237316195423570985008687907853269984665640564039457584007913129639936 := by
    omega
  have hj64 : j < 18446744073709551616 := by omega
  have hni : ¬ u64Max < i := by omega
  constructor
  · simp [parse_object_value, parse_receiving_or_object_value, advanceIdent,
      advanceLParen, advanceNumber, advanceComma, advanceRParen, peekTok,
      parseU256, parseU64, parseFakeIdPart, parseVersionPart, hi256, hj64, hni]
  · simp [parse_object_value, parse_receiving_or_object_value, advanceIdent,
      advanceLParen, advanceNumber, advanceRParen, peekTok,
      parseU256, parseFakeIdPart, parseVersionPart, hn256]

/-- Witness for C3 at concrete numerals: `object(3,1)` parses to the
enumerated handle `(3,1)`, and `object(5)` parses to the known handle of
the byte-reversed little-endian encoding of 5. -/
theorem c3_object_literal_parsing_witness :
    parse_object_value
        [Tok.ident "object", Tok.lparen, Tok.number 3, Tok.comma,
         Tok.number 1, Tok.rparen]
      = Except.ok (SuiExtraValueArgs.Object (FakeID.Enumerated 3 1) none, []) ∧
    parse_object_value [Tok.ident "object", Tok.lparen, Tok.number 5, Tok.rparen]
      = Except.ok
          (SuiExtraValueArgs.Object (FakeID.Known (toLeBytes32 5).reverse) none, []) :=
  c3_object_literal_parsing 3 1 5 (by norm_num [u64Max]) (by norm_num) (by norm_num)

/-- Outcome of a fallible Rust computation: `ok` and `err` model the two
arms of `anyhow::Result` (`bail!` produces `err`), while `panic` models a
Rust panic (`panic!` / `unimplemented!`), which aborts instead of
returning a value to the caller. -/
inductive Outcome (ε : Type) (α : Type) where
  | ok (a : α)
  | err (e : ε)
  | panic (msg : String)
deriving DecidableEq

/-- `?` / short-circuiting on `Outcome`: errors and panics propagate. -/
def Outcome.bind {ε α β : Type} : Outcome ε α → (α → Outcome ε β) → Outcome ε β
  | Outcome.ok a, f => f a
  | Outcome.err e, _ => Outcome.err e
  | Outcome.panic m, _ => Outcome.panic m

/-- `collect::<Result<Vec<_>, _>>()` over a mapped iterator: evaluate in
order, stopping at the first error or panic. -/
def outcomeMapM {ε α β : Type} (f : α → Outcome ε β) : List α → Outcome ε (List β)
  | [] => Outcome.ok []
  | x :: xs =>
    (f x).bind fun y => (outcomeMapM f xs).bind fun ys => Outcome.ok (y :: ys)

/-- The structured content of the resolver's `bail!` errors in args.rs;
each constructor carries exactly the datum the source formats into the
message, so "an error naming X" is "the error constructor applied to X". -/
inductive SuiErr where
  | unknownObject (handle : FakeID)
  | couldNotLoad (id : List Nat)
  | objVecNotSupported
  | unboundStagedPackage (name : String)
deriving DecidableEq

/-- `sui_types::object::Owner` (external type matched on in args.rs):
the ownership modes of an object. -/
inductive Owner where
  | Shared (initial_shared_version : Nat)
  | AddressOwner (addr : List Nat)
  | ObjectOwner (addr : List Nat)
  | Immutable
deriving DecidableEq

/-- Modelled from the spec: a resolved on-chain object (external
`sui_types::object::Object`), carrying exactly what args.rs reads from
it: identity, version, content digest and owner. -/
structure Object where
  id : List Nat
  version : Nat
  digest : List Nat
  owner : Owner
deriving DecidableEq

/-- `Object::compute_object_reference` (external): the exact reference
triple (identity, version, content digest). -/
def Object.compute_object_reference (o : Object) : List Nat × Nat × List Nat :=
  (o.id, o.version, o.digest)

/-- Modelled from the spec: a staged-but-unpublished package as recorded
in the scenario state (`StagedPackage` in test_adapter.rs, outside src);
only its content digest bytes are read here. -/
structure StagedPackage where
  digest : List Nat
deriving DecidableEq

/-- Modelled from the spec: the scenario-state collaborator
(`SuiTestAdapter` in test_adapter.rs, outside src) as args.rs consumes
it: the handle table (`fake_to_real_object_id`), the executor's object
store (`ObjectStore::get_object` / `get_object_by_key`, which may fail
or find nothing), and the staged-package table (`staged_modules`). -/
structure SuiTestAdapter where
  fake_to_real_object_id : FakeID → Option (List Nat)
  store_get_object : List Nat → Except Unit (Option Object)
  store_get_object_by_key : List Nat → Nat → Except Unit (Option Object)
  staged_modules : String → Option StagedPackage

/-- A value in the base value language (external
`move_core_types::value::MoveValue`, opaque to this core); only the
constructors exercised by the embedding are included. -/
inductive MoveValue where
  | U64 (n : Nat)
  | Bool (b : Bool)
  | Vector (xs : List MoveValue)
  | Struct (fields : List MoveValue)

/-- ULEB128 length encoding used by the serialization format. -/
def ulebEncode (n : Nat) : List Nat :=
  if h : n < 128 then [n]
  else (n % 128 + 128) :: ulebEncode (n / 128)
decreasing_by exact Nat.div_lt_self (by omega) (by omega)

mutual
/-- Modelled from the spec: `MoveValue::simple_serialize` (external),
the canonical serialized bytes of a plain value. -/
def serializeMoveValue : MoveValue → List Nat
  | MoveValue.U64 n => (List.range 8).map fun k => n / 256 ^ k % 256
  | MoveValue.Bool b => [if b then 1 else 0]
  | MoveValue.Vector xs => ulebEncode xs.length ++ serializeMoveValueList xs
  | MoveValue.Struct fs => serializeMoveValueList fs
/-- Serialization of a list of values, element by element. -/
def serializeMoveValueList : List MoveValue → List Nat
  | [] => []
  | x :: xs => serializeMoveValue x ++ serializeMoveValueList xs
end

/-- Modelled from the spec: `bcs::to_bytes` of a staged package's
content digest (external), the serialized content digest bytes: the
ULEB128 length followed by the raw bytes. -/
def serializedDigestBytes (d : List Nat) : List Nat :=
  ulebEncode d.length ++ d

/-- `SuiValue`: the concrete symbolic value consumed by the resolver. -/
inductive SuiValue where
  | MoveValue (v : MoveValue)
  | Object (f : FakeID) (version : Option Nat)
  | ObjVec (xs : List (FakeID × Option Nat))
  | Digest (s : String)
  | Receiving (f : FakeID) (version : Option Nat)

/-- `sui_types::transaction::ObjectArg` (external) as constructed in
args.rs. -/
inductive ObjectArg where
  | ImmOrOwnedObject (r : List Nat × Nat × List Nat)
  | SharedObject (id : List Nat) (initial_shared_version : Nat) (mutable : Bool)
  | Receiving (r : List Nat × Nat × List Nat)
deriving DecidableEq

/-- `sui_types::transaction::CallArg` (external) as constructed in
args.rs. -/
inductive CallArg where
  | Pure (bytes : List Nat)
  | Object (o : ObjectArg)
deriving DecidableEq

/-- `SuiValue::assert_move_value`: narrow to a plain value; every other
variant is a Rust `panic!` with the source's message. -/
def assert_move_value : SuiValue → Outcome SuiErr MoveValue
  | SuiValue.MoveValue v => Outcome.ok v
  | SuiValue.Object _ _ => Outcome.panic "unexpected nested Sui object in args"
  | SuiValue.ObjVec _ => Outcome.panic "unexpected nested Sui object vector in args"
  | SuiValue.Digest _ => Outcome.panic "unexpected nested Sui package digest in args"
  | SuiValue.Receiving _ _ => Outcome.panic "unexpected nested Sui receiving object in args"

/-- `SuiValue::assert_object`: narrow to an object reference; every
other variant is a Rust `panic!` with the source's message. -/
def assert_object : SuiValue → Outcome SuiErr (FakeID × Option Nat)
  | SuiValue.MoveValue _ => Outcome.panic "unexpected nested non-object value in args"
  | SuiValue.Object id version => Outcome.ok (id, version)
  | SuiValue.ObjVec _ => Outcome.panic "unexpected nested Sui object vector in args"
  | SuiValue.Digest _ => Outcome.panic "unexpected nested Sui package digest in args"
  | SuiValue.Receiving _ _ => Outcome.panic "unexpected nested Sui receiving object in args"

/-- `SuiValue::resolve_object`: map the handle through the handle table
(absent handle bails with the unknown-object error naming the handle),
then fetch by exact version when pinned and latest otherwise; a store
error or an absent object bails with the could-not-load error naming the
resolved real identity. -/
def resolve_object (fake_id : FakeID) (version : Option Nat)
    (A : SuiTestAdapter) : Outcome SuiErr Object :=
  match A.fake_to_real_object_id fake_id with
  | none => Outcome.err (SuiErr.unknownObject fake_id)
  | some id =>
    let obj_res :=
      match version with
      | some v => A.store_get_object_by_key id v
      | none => A.store_get_object id
    match obj_res with
    | Except.ok (some obj) => Outcome.ok obj
    | Except.ok none => Outcome.err (SuiErr.couldNotLoad id)
    | Except.error _ => Outcome.err (SuiErr.couldNotLoad id)

/-- `SuiValue::receiving_arg`: resolve the object, then always wrap its
exact reference as a receiving-mode input. -/
def receiving_arg (fake_id : FakeID) (version : Option Nat)
    (A : SuiTestAdapter) : Outcome SuiErr ObjectArg :=
  (resolve_object fake_id version A).bind fun obj =>
    Outcome.ok (ObjectArg.Receiving obj.compute_object_reference)

/-- `SuiValue::object_arg`: resolve the object, then branch on its
ownership mode: shared yields a shared-object input at the initial
shared version with `mutable = true`; address-owned, object-owned and
immutable yield the exact current reference. -/
def object_arg (fake_id : FakeID) (version : Option Nat)
    (A : SuiTestAdapter) : Outcome SuiErr ObjectArg :=
  (resolve_object fake_id version A).bind fun obj =>
    match obj.owner with
    | Owner.Shared initial_shared_version =>
      Outcome.ok (ObjectArg.SharedObject obj.id initial_shared_version true)
    | Owner.AddressOwner _ =>
      Outcome.ok (ObjectArg.ImmOrOwnedObject obj.compute_object_reference)
    | Owner.ObjectOwner _ =>
      Outcome.ok (ObjectArg.ImmOrOwnedObject obj.compute_object_reference)
    | Owner.Immutable =>
      Outcome.ok (ObjectArg.ImmOrOwnedObject obj.compute_object_reference)

/-- `SuiValue::into_call_arg`: top-level dispatch from a symbolic value
to a transaction input. -/
def into_call_arg (v : SuiValue) (A : SuiTestAdapter) :
    Outcome SuiErr CallArg :=
  match v with
  | SuiValue.Object fake_id version =>
    (object_arg fake_id version A).bind fun oa =>
      Outcome.ok (CallArg.Object oa)
  | SuiValue.MoveValue m => Outcome.ok (CallArg.Pure (serializeMoveValue m))
  | SuiValue.Receiving fake_id version =>
    (receiving_arg fake_id version A).bind fun oa =>
      Outcome.ok (CallArg.Object oa)
  | SuiValue.ObjVec _ => Outcome.err SuiErr.objVecNotSupported
  | SuiValue.Digest pkg =>
    match A.staged_modules pkg with
    | none => Outcome.err (SuiErr.unboundStagedPackage pkg)
    | some staged => Outcome.ok (CallArg.Pure (serializedDigestBytes staged.digest))

/-- A concrete scenario state used by the witnesses: two enumerated
handles (one shared object, one address-owned object), a versioned store
that holds each object only at its current version, and one staged
package named "foo". -/
def objShared : Object :=
  { id := [1], version := 4, digest := [9], owner := Owner.Shared 2 }

/-- The address-owned object of the witness scenario state. -/
def objOwned : Object :=
  { id := [2], version := 3, digest := [8], owner := Owner.AddressOwner [7] }

/-- The witness scenario state itself. -/
def adapterW : SuiTestAdapter where
  fake_to_real_object_id := fun f =>
    if f = FakeID.Enumerated 1 0 then some [1]
    else if f = FakeID.Enumerated 2 0 then some [2]
    else none
  store_get_object := fun id =>
    if id = [1] then Except.ok (some objShared)
    else if id = [2] then Except.ok (some objOwned)
    else Except.ok none
  store_get_object_by_key := fun id v =>
    if id = [1] ∧ v = 4 then Except.ok (some objShared)
    else if id = [2] ∧ v = 3 then Except.ok (some objOwned)
    else Except.ok none
  staged_modules := fun name =>
    if name = "foo" then some { digest := [3, 3] } else none

/-- Claim C2: when resolution succeeds, a shared object always yields a
shared-object input at its initial shared version with `mutable = true`,
and an address-owned, object-owned or immutable object always yields the
exact current reference (identity, version, content digest), never a
shared input. -/
theorem c2_ownership_branching (f : FakeID) (v : Option Nat) (A : SuiTestAdapter)
    (obj : Object) (h : resolve_object f v A = Outcome.ok obj) :
    (∀ isv, obj.owner = Owner.Shared isv →
      object_arg f v A = Outcome.ok (ObjectArg.SharedObject obj.id isv true)) ∧
    ((obj.owner = Owner.Immutable ∨ (∃ a, obj.owner = Owner.AddressOwner a) ∨
        (∃ a, obj.owner = Owner.ObjectOwner a)) →
      object_arg f v A
        = Outcome.ok (ObjectArg.ImmOrOwnedObject obj.compute_object_reference)) := by
  constructor
  · intro isv hown
    simp [object_arg, h, Outcome.bind, hown]
  · rintro (hown | ⟨a, hown⟩ | ⟨a, hown⟩) <;>
      simp [object_arg, h, Outcome.bind, hown]

/-- Witness for C2: in the concrete scenario state, the shared object
resolves to a mutable shared input at initial shared version 2, and the
address-owned object resolves to its exact reference. -/
theorem c2_ownership_branching_witness :
    object_arg (FakeID.Enumerated 1 0) none adapterW
      = Outcome.ok (ObjectArg.SharedObject [1] 2 true) ∧
    object_arg (FakeID.Enumerated 2 0) none adapterW
      = Outcome.ok (ObjectArg.ImmOrOwnedObject ([2], 3, [8])) := by
  constructor
  · exact (c2_ownership_branching (FakeID.Enumerated 1 0) none adapterW objShared
      (by rfl)).1 2 (by rfl)
  · exact (c2_ownership_branching (FakeID.Enumerated 2 0) none adapterW objOwned
      (by rfl)).2 (Or.inr (Or.inl ⟨[7], rfl⟩))

/-- Claim C4: an absent handle fails with the unknown-object error naming
the handle; with no pin the lookup is exactly the store's latest-version
fetch, with a pin exactly the store's fetch at that version (so a pin
miss never falls back to latest); a store failure or an absent object
fails with the could-not-load error naming the resolved real identity. -/
theorem c4_resolution_lookup (f : FakeID) (anyv : Option Nat) (v : Nat)
    (A : SuiTestAdapter) (id : List Nat) :
    (A.fake_to_real_object_id f = none →
      resolve_object f anyv A = Outcome.err (SuiErr.unknownObject f)) ∧
    (A.fake_to_real_object_id f = some id →
      resolve_object f none A
        = (match A.store_get_object id with
           | Except.ok (some o) => Outcome.ok o
           | Except.ok none => Outcome.err (SuiErr.couldNotLoad id)
           | Except.error _ => Outcome.err (SuiErr.couldNotLoad id)) ∧
      resolve_object f (some v) A
        = (match A.store_get_object_by_key id v with
           | Except.ok (some o) => Outcome.ok o
           | Except.ok none => Outcome.err (SuiErr.couldNotLoad id)
           | Except.error _ => Outcome.err (SuiErr.couldNotLoad id)) ∧
      (A.store_get_object_by_key id v = Except.ok none →
        resolve_object f (some v) A = Outcome.err (SuiErr.couldNotLoad id))) := by
  refine ⟨fun h => by simp [resolve_object, h], fun h => ⟨?_, ?_, fun hmiss => ?_⟩⟩
  · simp only [resolve_object, h]
  · simp only [resolve_object, h]
  · simp [resolve_object, h, hmiss]

/-- Witness for C4: an unmapped handle gives the unknown-object error;
pinning the shared object to version 5 (which the store does not hold)
gives the could-not-load error naming `[1]` even though the latest
version exists. -/
theorem c4_resolution_lookup_witness :
    resolve_object (FakeID.Enumerated 9 9) none adapterW
      = Outcome.err (SuiErr.unknownObject (FakeID.Enumerated 9 9)) ∧
    resolve_object (FakeID.Enumerated 1 0) (some 5) adapterW
      = Outcome.err (SuiErr.couldNotLoad [1]) := by
  constructor
  · exact (c4_resolution_lookup (FakeID.Enumerated 9 9) none 0 adapterW []).1 (by rfl)
  · exact ((c4_resolution_lookup (FakeID.Enumerated 1 0) none 5 adapterW [1]).2
      (by rfl)).2.2 (by rfl)

/-- Claim C5: a receiving reference performs the identical object
resolution and, whenever that succeeds, always wraps the exact reference
as a receiving-mode input, with no branching on the ownership mode. -/
theorem c5_receiving_mode (f : FakeID) (v : Option Nat) (A : SuiTestAdapter)
    (obj : Object) (h : resolve_object f v A = Outcome.ok obj) :
    receiving_arg f v A
      = Outcome.ok (ObjectArg.Receiving obj.compute_object_reference) := by
  simp [receiving_arg, h, Outcome.bind]

/-- Witness for C5: in the concrete scenario state, both the shared and
the address-owned object resolve to receiving inputs. -/
theorem c5_receiving_mode_witness :
    receiving_arg (FakeID.Enumerated 1 0) none adapterW
      = Outcome.ok (ObjectArg.Receiving ([1], 4, [9])) ∧
    receiving_arg (FakeID.Enumerated 2 0) none adapterW
      = Outcome.ok (ObjectArg.Receiving ([2], 3, [8])) := by
  constructor
  · exact c5_receiving_mode (FakeID.Enumerated 1 0) none adapterW objShared (by rfl)
  · exact c5_receiving_mode (FakeID.Enumerated 2 0) none adapterW objOwned (by rfl)

/-- Claim C8: resolving `digest(NAME)` with `NAME` absent from the
staged-package table fails with the unbound-staged-package error naming
it; with `NAME` present it produces a pure input containing exactly the
serialized content digest bytes of the staged package. -/
theorem c8_digest_resolution (A : SuiTestAdapter) (name : String)
    (staged : StagedPackage) :
    (A.staged_modules name = none →
      into_call_arg (SuiValue.Digest name) A
        = Outcome.err (SuiErr.unboundStagedPackage name)) ∧
    (A.staged_modules name = some staged →
      into_call_arg (SuiValue.Digest name) A
        = Outcome.ok (CallArg.Pure (serializedDigestBytes staged.digest))) := by
  constructor <;> intro h <;> simp [into_call_arg, h]

/-- Witness for C8: in the concrete scenario state, `digest(foo)`
resolves to the serialized bytes of the staged digest `[3, 3]`, and
`digest(bar)` fails with the unbound-staged-package error naming it. -/
theorem c8_digest_resolution_witness :
    into_call_arg (SuiValue.Digest "foo") adapterW
      = Outcome.ok (CallArg.Pure (serializedDigestBytes [3, 3])) ∧
    into_call_arg (SuiValue.Digest "bar") adapterW
      = Outcome.err (SuiErr.unboundStagedPackage "bar") := by
  constructor
  · exact (c8_digest_resolution adapterW "foo" { digest := [3, 3] }).2 (by rfl)
  · exact (c8_digest_resolution adapterW "bar" { digest := [] }).1 (by rfl)

/-- `SuiExtraValueArgs::concrete_vector`: a non-empty element list whose
first element is an ordinary object reference is reinterpreted wholesale
as an object vector by narrowing every element with `assert_object`;
every other list becomes a plain value vector by narrowing every element
with `assert_move_value`. -/
def concrete_vector (elems : List SuiValue) : Outcome SuiErr SuiValue :=
  match elems with
  | SuiValue.Object _ _ :: _ =>
    (outcomeMapM assert_object elems).bind fun xs =>
      Outcome.ok (SuiValue.ObjVec xs)
  | _ =>
    (outcomeMapM assert_move_value elems).bind fun xs =>
      Outcome.ok (SuiValue.MoveValue (MoveValue.Vector xs))

/-- `SuiExtraValueArgs::concrete_struct`: a struct literal narrows every
field with `assert_move_value` (so nested references are fatal). -/
def concrete_struct (values : List SuiValue) : Outcome SuiErr SuiValue :=
  (outcomeMapM assert_move_value values).bind fun xs =>
    Outcome.ok (SuiValue.MoveValue (MoveValue.Struct xs))

/-- `sui_types::transaction::Argument` (external): a builder-level
argument handle. -/
inductive Argument where
  | Input (idx : Nat)
  | Result (idx : Nat)
deriving DecidableEq

/-- Modelled from the spec: the transaction builder (external
`ProgrammableTransactionBuilder`) as observed here — the inputs it has
registered and the number of commands recorded so far. -/
structure Builder where
  inputs : List CallArg
  commands : Nat
deriving DecidableEq

/-- Modelled from the spec: `ProgrammableTransactionBuilder::input`
(external): register one transaction input and return its argument. -/
def Builder.input (b : Builder) (c : CallArg) : Argument × Builder :=
  (Argument.Input b.inputs.length, { b with inputs := b.inputs ++ [c] })

/-- Modelled from the spec:
`ProgrammableTransactionBuilder::make_obj_vec` (external): register the
resolved object inputs as a builder-level object vector argument. -/
def Builder.make_obj_vec (b : Builder) (objs : List ObjectArg) : Argument × Builder :=
  (Argument.Result b.commands,
   { inputs := b.inputs ++ objs.map CallArg.Object, commands := b.commands + 1 })

/-- `SuiValue::into_argument`: an object-vector value resolves every
element to an object input (failing the whole operation on the first
failing element, before the builder is touched) and registers them as an
object vector argument; every other value goes through `into_call_arg`
and is registered as a single input. -/
def into_argument (v : SuiValue) (b : Builder) (A : SuiTestAdapter) :
    Outcome SuiErr (Argument × Builder) :=
  match v with
  | SuiValue.ObjVec vec =>
    (outcomeMapM (fun p => object_arg p.1 p.2 A) vec).bind fun objs =>
      Outcome.ok (b.make_obj_vec objs)
  | value =>
    (into_call_arg value A).bind fun call_arg =>
      Outcome.ok (b.input call_arg)

/-- Claim C7: a vector whose first element is an object reference and
which also contains a plain value is rejected by the fatal
`assert_object` panic, and the combined concretize-then-register
pipeline therefore aborts without ever producing a builder state — no
argument is partially registered. -/
theorem c7_mixed_object_vector (f : FakeID) (v : Option Nat) (m : MoveValue)
    (rest : List SuiValue) (b : Builder) (A : SuiTestAdapter) :
    concrete_vector (SuiValue.Object f v :: SuiValue.MoveValue m :: rest)
      = Outcome.panic "unexpected nested non-object value in args" ∧
    (concrete_vector (SuiValue.Object f v :: SuiValue.MoveValue m :: rest)).bind
        (fun val => into_argument val b A)
      = Outcome.panic "unexpected nested non-object value in args" := by
  constructor <;> rfl

/-- Every outcome of the plain-vector branch of `concrete_vector` that
succeeds produces a plain value vector, never an object vector. -/
theorem plainVectorBranchShape (elems : List SuiValue) (res : SuiValue)
    (h : (outcomeMapM assert_move_value elems).bind
        (fun ys => Outcome.ok (SuiValue.MoveValue (MoveValue.Vector ys)))
       = Outcome.ok res) :
    ∃ ys, res = SuiValue.MoveValue (MoveValue.Vector ys) := by
  cases hm : outcomeMapM assert_move_value elems <;>
    simp [hm, Outcome.bind] at h
  exact ⟨_, h.symm⟩

/-- Every outcome of the object-vector branch of `concrete_vector` that
succeeds produces an object vector. -/
theorem objVectorBranchShape (elems : List SuiValue) (res : SuiValue)
    (h : (outcomeMapM assert_object elems).bind
        (fun ys => Outcome.ok (SuiValue.ObjVec ys)) = Outcome.ok res) :
    ∃ ys, res = SuiValue.ObjVec ys := by
  cases hm : outcomeMapM assert_object elems <;>
    simp [hm, Outcome.bind] at h
  exact ⟨_, h.symm⟩

/-- Claim C10: the object-vector reinterpretation triggers exactly when
the element list is non-empty with an ordinary object reference first:
an empty vector literal is a plain empty value vector; a successful
object-vector result forces the first element to be an object reference;
a vector starting with an object reference can only succeed as an object
vector; and a vector starting with a receiving or digest reference is
narrowed as plain values, which is fatal. -/
theorem c10_object_vector_guard (f : FakeID) (v : Option Nat) (s : String)
    (rest : List SuiValue) (elems : List SuiValue) :
    concrete_vector [] = Outcome.ok (SuiValue.MoveValue (MoveValue.Vector [])) ∧
    (∀ xs, concrete_vector elems = Outcome.ok (SuiValue.ObjVec xs) →
      ∃ g w rest2, elems = SuiValue.Object g w :: rest2) ∧
    (∀ out, concrete_vector (SuiValue.Object f v :: rest) = Outcome.ok out →
      ∃ xs, out = SuiValue.ObjVec xs) ∧
    concrete_vector (SuiValue.Receiving f v :: rest)
      = Outcome.panic "unexpected nested Sui receiving object in args" ∧
    concrete_vector (SuiValue.Digest s :: rest)
      = Outcome.panic "unexpected nested Sui package digest in args" := by
  refine ⟨rfl, ?_, ?_, rfl, rfl⟩
  · intro xs h
    match elems with
    | [] => simp [concrete_vector, outcomeMapM, Outcome.bind] at h
    | SuiValue.Object g w :: rest2 => exact ⟨g, w, rest2, rfl⟩
    | SuiValue.MoveValue mv :: rest2 =>
      obtain ⟨ys, hy⟩ := plainVectorBranchShape (SuiValue.MoveValue mv :: rest2) _ h
      simp at hy
    | SuiValue.ObjVec ov :: rest2 =>
      obtain ⟨ys, hy⟩ := plainVectorBranchShape (SuiValue.ObjVec ov :: rest2) _ h
      simp at hy
    | SuiValue.Digest dg :: rest2 =>
      obtain ⟨ys, hy⟩ := plainVectorBranchShape (SuiValue.Digest dg :: rest2) _ h
      simp at hy
    | SuiValue.Receiving rf rv :: rest2 =>
      obtain ⟨ys, hy⟩ := plainVectorBranchShape (SuiValue.Receiving rf rv :: rest2) _ h
      simp at hy
  · intro out h
    exact objVectorBranchShape (SuiValue.Object f v :: rest) out h

/-- Witness for C10: the empty vector is the plain empty value vector; a
singleton object vector concretizes to an object vector (so, by the
claim, its head must be an object reference); a vector headed by a
receiving reference is fatal. -/
theorem c10_object_vector_guard_witness :
    concrete_vector [] = Outcome.ok (SuiValue.MoveValue (MoveValue.Vector [])) ∧
    (∃ g w rest2,
      ([SuiValue.Object (FakeID.Enumerated 1 0) none] : List SuiValue)
        = SuiValue.Object g w :: rest2) ∧
    (∃ xs, SuiValue.ObjVec [(FakeID.Enumerated 1 0, none)] = SuiValue.ObjVec xs) ∧
    concrete_vector [SuiValue.Receiving (FakeID.Enumerated 1 0) none]
      = Outcome.panic "unexpected nested Sui receiving object in args" := by
  have h := c10_object_vector_guard (FakeID.Enumerated 1 0) none "x" []
    [SuiValue.Object (FakeID.Enumerated 1 0) none]
  exact ⟨h.1,
    h.2.1 [(FakeID.Enumerated 1 0, none)] (by rfl),
    h.2.2.1 (SuiValue.ObjVec [(FakeID.Enumerated 1 0, none)]) (by rfl),
    h.2.2.2.1⟩

/-- Outcome of an execution-adapter operation in lib.rs: `ok` / `err`
model `anyhow::Result` (or `SuiResult`), and `panic` models
`unimplemented!`, which aborts instead of returning a value. -/
inductive AdapterResult (α : Type) where
  | ok (a : α)
  | err (msg : String)
  | panic (msg : String)
deriving DecidableEq

/-- Whether an adapter operation returned a value. -/
def AdapterResult.isOk {α : Type} : AdapterResult α → Bool
  | AdapterResult.ok _ => true
  | _ => false

/-- Whether an adapter operation aborted with a panic. -/
def AdapterResult.isPanic {α : Type} : AdapterResult α → Bool
  | AdapterResult.panic _ => true
  | _ => false

/-- A chain event (external `sui_types::event::Event`); the payload is
opaque here. -/
structure Event where
  payload : Nat
deriving DecidableEq

/-- An RPC-level event (external `SuiEvent`) as returned by the
fullnode's event index. -/
structure SuiEvent where
  payload : Nat
deriving DecidableEq

/-- `sui_event.into()`: the conversion from the RPC event to the chain
event (external), preserving the event and its position. -/
def SuiEvent.toEvent (e : SuiEvent) : Event := { payload := e.payload }

/-- Transaction effects (external `sui_types::effects`); opaque here. -/
structure TransactionEffects where
  tag : Nat
deriving DecidableEq

/-- A verified checkpoint (external); only its sequence number is kept. -/
structure VerifiedCheckpoint where
  sequence_number : Nat
deriving DecidableEq

/-- An execution error that occurred during execution (external). -/
structure ExecutionError where
  code : Nat
deriving DecidableEq

/-- Dev-inspect results (external `DevInspectResults`); opaque here. -/
structure DevInspectResults where
  tag : Nat
deriving DecidableEq

/-- A fully-formed transaction (external); opaque here. -/
structure Transaction where
  payload : Nat
deriving DecidableEq

/-- The events recorded for one transaction (external
`TransactionEvents`), whose `data` lists the events in emission
(oldest-first) order. -/
structure TransactionEvents where
  data : List Event
deriving DecidableEq

/-- Modelled from the spec: the validator+fullnode backend state as the
adapter impl reads it, reduced to the validator's event index
(`AuthorityState::query_events`, external): digest, limit and the
descending flag give up to `limit` matching events or an error. -/
structure ValidatorWithFullnode where
  query_events : Nat → Nat → Bool → Except Unit (List SuiEvent)

/-- `ValidatorWithFullnode::query_tx_events_asc`: query the validator's
event index for the digest with `descending = false`, defaulting to the
empty list on error, and convert each event. -/
def ValidatorWithFullnode.query_tx_events_asc (vf : ValidatorWithFullnode)
    (tx_digest : Nat) (limit : Nat) : AdapterResult (List Event) :=
  AdapterResult.ok
    ((match vf.query_events tx_digest limit false with
      | Except.ok evs => evs
      | Except.error _ => []).map SuiEvent.toEvent)

/-- `ValidatorWithFullnode::create_checkpoint`: `unimplemented!`. -/
def ValidatorWithFullnode.create_checkpoint (_vf : ValidatorWithFullnode) :
    AdapterResult VerifiedCheckpoint :=
  AdapterResult.panic "create_checkpoint not supported"

/-- `ValidatorWithFullnode::advance_clock`: `unimplemented!`. -/
def ValidatorWithFullnode.advance_clock (_vf : ValidatorWithFullnode)
    (_duration : Nat) : AdapterResult TransactionEffects :=
  AdapterResult.panic "advance_clock not supported"

/-- `ValidatorWithFullnode::advance_epoch`: `unimplemented!`. -/
def ValidatorWithFullnode.advance_epoch (_vf : ValidatorWithFullnode) :
    AdapterResult Unit :=
  AdapterResult.panic "advance_epoch not supported"

/-- `ValidatorWithFullnode::request_gas`: `unimplemented!`. -/
def ValidatorWithFullnode.request_gas (_vf : ValidatorWithFullnode)
    (_address : Nat) (_amount : Nat) : AdapterResult TransactionEffects :=
  AdapterResult.panic "request_gas not supported"

/-- Modelled from the spec: the simulator's ledger state (internals of
the external `Simulacrum` crate): the local event store keyed by
transaction digest, the logical clock, the epoch, the checkpoint counter
and account balances. -/
structure SimState where
  tx_events : Nat → Option TransactionEvents
  clock_timestamp_ms : Nat
  epoch : Nat
  next_checkpoint : Nat
  balances : Nat → Nat

/-- Modelled from the spec: inherent `Simulacrum::create_checkpoint`
(external crate): force-close the current checkpoint and return it. -/
def SimState.create_checkpoint_impl (s : SimState) :
    VerifiedCheckpoint × SimState :=
  ({ sequence_number := s.next_checkpoint },
   { s with next_checkpoint := s.next_checkpoint + 1 })

/-- Modelled from the spec: inherent `Simulacrum::advance_clock`
(external crate): move logical time forward by the duration and return
the effects of the clock-advancing system transaction. -/
def SimState.advance_clock_impl (s : SimState) (duration : Nat) :
    TransactionEffects × SimState :=
  ({ tag := 0 }, { s with clock_timestamp_ms := s.clock_timestamp_ms + duration })

/-- Modelled from the spec: inherent `Simulacrum::advance_epoch`
(external crate): force an epoch transition. -/
def SimState.advance_epoch_impl (s : SimState) : SimState :=
  { s with epoch := s.epoch + 1 }

/-- Modelled from the spec: inherent `Simulacrum::request_gas` (external
crate): credit the address via a faucet-style system transaction,
returning its effects, or fail with a backend error. -/
def SimState.request_gas_impl (s : SimState) (address : Nat) (amount : Nat) :
    Except String (TransactionEffects × SimState) :=
  Except.ok ({ tag := 1 },
    { s with balances := fun a =>
        if a = address then s.balances a + amount else s.balances a })

/-- Modelled from the spec: inherent `Simulacrum::execute_transaction`
(external crate): execute and commit, returning effects plus an optional
execution error, or fail with a backend error. -/
def SimState.execute_transaction_impl (s : SimState) (tx : Transaction) :
    Except String ((TransactionEffects × Option ExecutionError) × SimState) :=
  Except.ok (({ tag := tx.payload }, none), s)

/-- `impl TransactionalAdapter for Simulacrum`: `execute_txn` forwards
the inherent execution with `?`. -/
def Simulacrum.execute_txn (s : SimState) (tx : Transaction) :
    AdapterResult ((TransactionEffects × Option ExecutionError) × SimState) :=
  match s.execute_transaction_impl tx with
  | Except.ok r => AdapterResult.ok r
  | Except.error m => AdapterResult.err m

/-- `Simulacrum::dev_inspect_transaction_block` in the adapter impl:
`unimplemented!`. -/
def Simulacrum.dev_inspect_transaction_block (_s : SimState) (_sender : Nat)
    (_transaction_kind : Nat) (_gas_price : Option Nat) :
    AdapterResult DevInspectResults :=
  AdapterResult.panic "dev_inspect_transaction_block not supported in simulator mode"

/-- `Simulacrum::query_tx_events_asc` in the adapter impl: read the
local event store for the digest, defaulting to the empty list; the
`limit` parameter is ignored (`_limit`). -/
def Simulacrum.query_tx_events_asc (s : SimState) (tx_digest : Nat)
    (_limit : Nat) : AdapterResult (List Event) :=
  AdapterResult.ok (((s.tx_events tx_digest).map fun x => x.data).getD [])

/-- `Simulacrum::create_checkpoint` in the adapter impl: wrap the
inherent operation in `Ok`. -/
def Simulacrum.create_checkpoint (s : SimState) :
    AdapterResult (VerifiedCheckpoint × SimState) :=
  AdapterResult.ok s.create_checkpoint_impl

/-- `Simulacrum::advance_clock` in the adapter impl: wrap the inherent
operation in `Ok`. -/
def Simulacrum.advance_clock (s : SimState) (duration : Nat) :
    AdapterResult (TransactionEffects × SimState) :=
  AdapterResult.ok (s.advance_clock_impl duration)

/-- `Simulacrum::advance_epoch` in the adapter impl: run the inherent
operation and return `Ok(())`. -/
def Simulacrum.advance_epoch (s : SimState) : AdapterResult (Unit × SimState) :=
  AdapterResult.ok ((), s.advance_epoch_impl)

/-- `Simulacrum::request_gas` in the adapter impl: forward the inherent
operation's result. -/
def Simulacrum.request_gas (s : SimState) (address : Nat) (amount : Nat) :
    AdapterResult (TransactionEffects × SimState) :=
  match s.request_gas_impl address amount with
  | Except.ok r => AdapterResult.ok r
  | Except.error m => AdapterResult.err m

/-- A concrete validator+fullnode backend whose event index is empty. -/
def vfW : ValidatorWithFullnode := { query_events := fun _ _ _ => Except.ok [] }

/-- Counterexample to C1 as stated: on a concrete validator+fullnode
backend, checkpoint creation panics with the not-supported message (the
`unimplemented!` macro), so the failure is a panic, not a signal
returned to the caller. -/
theorem c1_counterexample :
    ValidatorWithFullnode.create_checkpoint vfW
      = AdapterResult.panic "create_checkpoint not supported" := rfl

/-- Claim C1 as amended: on the validator+fullnode backend each of the
four operations fails fast by panicking with its explicit
"not supported" message, and none returns effects (default or
otherwise) or an error value. -/
theorem c1_unsupported_operations (vf : ValidatorWithFullnode)
    (d addr amt : Nat) :
    ValidatorWithFullnode.create_checkpoint vf
      = AdapterResult.panic "create_checkpoint not supported" ∧
    ValidatorWithFullnode.advance_clock vf d
      = AdapterResult.panic "advance_clock not supported" ∧
    ValidatorWithFullnode.advance_epoch vf
      = AdapterResult.panic "advance_epoch not supported" ∧
    ValidatorWithFullnode.request_gas vf addr amt
      = AdapterResult.panic "request_gas not supported" :=
  ⟨rfl, rfl, rfl, rfl⟩

/-- A concrete simulator state with an empty event store. -/
def simW : SimState :=
  { tx_events := fun _ => none, clock_timestamp_ms := 0, epoch := 0,
    next_checkpoint := 0, balances := fun _ => 0 }

/-- Counterexample to C6 as stated: on a concrete simulator state,
dev-inspect does not return a result; it panics as unsupported. -/
theorem c6_counterexample :
    Simulacrum.dev_inspect_transaction_block simW 0 0 none
      = AdapterResult.panic
          "dev_inspect_transaction_block not supported in simulator mode" := rfl

/-- Claim C6 as amended: on the simulator backend, execute, checkpoint
creation, clock advance, epoch advance, funds request and ascending
event queries are all natively supported (they return a result, or a
backend error for the two fallible ones, never an unsupported panic),
while dev-inspect is the one capability that fails as unsupported. -/
theorem c6_simulator_support (s : SimState) (tx : Transaction)
    (d addr amt dig lim : Nat) :
    (Simulacrum.create_checkpoint s).isOk = true ∧
    (Simulacrum.advance_clock s d).isOk = true ∧
    (Simulacrum.advance_epoch s).isOk = true ∧
    (Simulacrum.request_gas s addr amt).isPanic = false ∧
    (Simulacrum.execute_txn s tx).isPanic = false ∧
    (Simulacrum.query_tx_events_asc s dig lim).isOk = true ∧
    Simulacrum.dev_inspect_transaction_block s addr 0 none
      = AdapterResult.panic
          "dev_inspect_transaction_block not supported in simulator mode" :=
  ⟨rfl, rfl, rfl, rfl, rfl, rfl, rfl⟩

/-- A concrete simulator state whose event store holds two events for
transaction digest 7. -/
def simCx : SimState :=
  { tx_events := fun d =>
      if d = 7 then some { data := [{ payload := 0 }, { payload := 1 }] }
      else none,
    clock_timestamp_ms := 0, epoch := 0, next_checkpoint := 0,
    balances := fun _ => 0 }

/-- Counterexample to C9 as stated: on the simulator backend, querying
digest 7 with `limit = 1` returns both stored events — more than
`limit` — because the implementation ignores the limit parameter. -/
theorem c9_counterexample :
    Simulacrum.query_tx_events_asc simCx 7 1
      = AdapterResult.ok [{ payload := 0 }, { payload := 1 }] ∧
    1 < ([{ payload := 0 }, { payload := 1 }] : List Event).length :=
  ⟨rfl, by decide⟩

/-- A concrete validator+fullnode backend whose event index holds one
event for digest 7 at any positive limit, and fails otherwise. -/
def vf9 : ValidatorWithFullnode :=
  { query_events := fun d lim _ =>
      if d = 7 ∧ 1 ≤ lim then Except.ok [{ payload := 5 }]
      else Except.error () }

/-- Claim C9 as amended: on the validator+fullnode backend, whenever the
validator's event index returns at most `limit` events for the digest
(queried with the ascending flag), the adapter returns exactly those
events, converted in order, so at most `limit` of them, and an index
error yields the empty list; on the simulator backend the limit is
ignored: an unknown digest yields the empty list rather than a failure,
and a known digest yields all of its stored events in stored
(oldest-first) order. -/
theorem c9_event_queries (vf : ValidatorWithFullnode) (s : SimState)
    (dig lim : Nat) (evs : List SuiEvent) (te : TransactionEvents) :
    (vf.query_events dig lim false = Except.ok evs → evs.length ≤ lim →
      vf.query_tx_events_asc dig lim
        = AdapterResult.ok (evs.map SuiEvent.toEvent) ∧
      (evs.map SuiEvent.toEvent).length ≤ lim) ∧
    (vf.query_events dig lim false = Except.error () →
      vf.query_tx_events_asc dig lim = AdapterResult.ok []) ∧
    (s.tx_events dig = none →
      Simulacrum.query_tx_events_asc s dig lim = AdapterResult.ok []) ∧
    (s.tx_events dig = some te →
      Simulacrum.query_tx_events_asc s dig lim = AdapterResult.ok te.data) := by
  refine ⟨fun h hlen => ⟨?_, ?_⟩, fun h => ?_, fun h => ?_, fun h => ?_⟩
  · simp [ValidatorWithFullnode.query_tx_events_asc, h]
  · simpa using hlen
  · simp [ValidatorWithFullnode.query_tx_events_asc, h]
  · simp [Simulacrum.query_tx_events_asc, h]
  · simp [Simulacrum.query_tx_events_asc, h]

/-- Witness for C9 as amended, at concrete backends: the validator
adapter returns the single indexed event under `limit = 1`, returns
empty on an index error, and the simulator returns empty for an unknown
digest and the full stored list for a known one. -/
theorem c9_event_queries_witness :
    ValidatorWithFullnode.query_tx_events_asc vf9 7 1
      = AdapterResult.ok [{ payload := 5 }] ∧
    ValidatorWithFullnode.query_tx_events_asc vf9 0 3 = AdapterResult.ok [] ∧
    Simulacrum.query_tx_events_asc simW 3 1 = AdapterResult.ok [] ∧
    Simulacrum.query_tx_events_asc simCx 7 1
      = AdapterResult.ok [{ payload := 0 }, { payload := 1 }] := by
  refine ⟨?_, ?_, ?_, ?_⟩
  · exact ((c9_event_queries vf9 simW 7 1 [{ payload := 5 }] { data := [] }).1
      (by rfl) (by decide)).1
  · exact (c9_event_queries vf9 simW 0 3 [] { data := [] }).2.1 (by rfl)
  · exact (c9_event_queries vf9 simW 3 1 [] { data := [] }).2.2.1 (by rfl)
  · exact (c9_event_queries vf9 simCx 7 1 []
      { data := [{ payload := 0 }, { payload := 1 }] }).2.2.2 (by rfl)
